import Mathlib

/-!
# Verification of the accumulation trading controller

Shallow embedding of the decision-and-validation pipeline of the
binance trading bot:

* `src/lib/accumulation-strategies.ts` — price history buffer, SMA/RSI
  indicators, and the `getOptimalAction` decision ladder of
  `AccumulationEngine`;
* `src/unnamed/part_001` — `BinanceFilters.adjustQuantity` and
  `BinanceFilters.validateOrder` (trading-rule quantization/validation);
* `src/lib/binance-time-sync.ts` — `syncServerTime` clock synchronization.

JavaScript numbers are modelled as exact rationals (`ℚ`).  Where the IEEE
special values `Infinity`/`NaN` are semantically load-bearing — the
unguarded division `avgGain / avgLoss` inside the RSI computation — a small
`JsNum` type models IEEE arithmetic on those values explicitly.  Mutable
object state (`this.priceHistory`, the module-level clock-offset variables)
is modelled by explicit state passing; `Date.now()` becomes an explicit
parameter.
-/

set_option autoImplicit false

namespace BinanceBot

/-! ## Data model of `accumulation-strategies.ts` -/

/-- `interface MarketData { price; volume; timestamp }`. -/
structure MarketData where
  price : ℚ
  volume : ℚ
  timestamp : ℤ
deriving DecidableEq

/-- `interface AccumulationConfig`.  The `strategy` discriminator string is
kept verbatim; only `baseAmount` is read by `getOptimalAction`. -/
structure AccumulationConfig where
  strategy : String
  baseAmount : ℚ
  maxXrpHolding : ℚ
  riskTolerance : ℚ
deriving DecidableEq

/-- `array.slice(-k)`: the `k` most recent entries (the whole list when it is
shorter than `k`). -/
def lastN {α : Type} (l : List α) (k : ℕ) : List α :=
  l.drop (l.length - k)

/-- `AccumulationEngine.calculateSMA` (accumulation-strategies.ts:23-28):
`if (this.priceHistory.length < period) return 0` then the arithmetic mean
of the last `period` prices. -/
def calculateSMA (history : List MarketData) (period : ℕ) : ℚ :=
  if history.length < period then 0
  else ((lastN history period).map (fun d => d.price)).sum / period

/-- A JavaScript `number` restricted to the values the RSI computation can
produce: a finite rational, `Infinity`, `-Infinity`, or `NaN`. -/
inductive JsNum where
  | num (q : ℚ)
  | inf
  | ninf
  | nan
deriving DecidableEq

namespace JsNum

/-- IEEE addition on `JsNum`. -/
def jsAdd : JsNum → JsNum → JsNum
  | nan, _ => nan
  | _, nan => nan
  | num a, num b => num (a + b)
  | num _, inf => inf
  | inf, num _ => inf
  | num _, ninf => ninf
  | ninf, num _ => ninf
  | inf, inf => inf
  | ninf, ninf => ninf
  | inf, ninf => nan
  | ninf, inf => nan

/-- IEEE subtraction on `JsNum`. -/
def jsSub : JsNum → JsNum → JsNum
  | nan, _ => nan
  | _, nan => nan
  | num a, num b => num (a - b)
  | num _, inf => ninf
  | inf, num _ => inf
  | num _, ninf => inf
  | ninf, num _ => ninf
  | inf, inf => nan
  | ninf, ninf => nan
  | inf, ninf => inf
  | ninf, inf => ninf

/-- IEEE division on `JsNum` (rational operands model `+0`, so `x / 0`
follows the sign of `x` and `0 / 0` is `NaN`). -/
def jsDiv : JsNum → JsNum → JsNum
  | nan, _ => nan
  | _, nan => nan
  | num a, num b =>
      if b = 0 then (if a = 0 then nan else if 0 < a then inf else ninf)
      else num (a / b)
  | num _, inf => num 0
  | num _, ninf => num 0
  | inf, num b => if 0 ≤ b then inf else ninf
  | ninf, num b => if 0 ≤ b then ninf else inf
  | inf, inf => nan
  | inf, ninf => nan
  | ninf, inf => nan
  | ninf, ninf => nan

/-- IEEE `>` against a finite rational: comparisons with `NaN` are false. -/
def jsGtQ : JsNum → ℚ → Bool
  | num a, q => decide (q < a)
  | inf, _ => true
  | ninf, _ => false
  | nan, _ => false

/-- IEEE `<` against a finite rational: comparisons with `NaN` are false. -/
def jsLtQ : JsNum → ℚ → Bool
  | num a, q => decide (a < q)
  | inf, _ => false
  | ninf, _ => true
  | nan, _ => false

end JsNum

/-- The gains/losses accumulation loop of `calculateRSI`
(accumulation-strategies.ts:38-42): for each consecutive delta,
`change > 0` adds to gains, otherwise `|change|` (zero included) adds to
losses. -/
def gainsLosses : List ℚ → ℚ × ℚ
  | a :: b :: rest =>
      let gl := gainsLosses (b :: rest)
      let change := b - a
      if 0 < change then (gl.1 + change, gl.2) else (gl.1, gl.2 + |change|)
  | _ => (0, 0)

/-- `AccumulationEngine.calculateRSI` (accumulation-strategies.ts:31-48):
returns 50 when fewer than `period + 1` samples exist, else
`100 - 100/(1 + rs)` with `rs = avgGain / avgLoss` computed by unguarded
IEEE division (hence `NaN` when both are zero, `Infinity` when only
`avgLoss` is). -/
def calculateRSI (history : List MarketData) (period : ℕ) : JsNum :=
  if history.length < period + 1 then JsNum.num 50
  else
    let prices := (lastN history (period + 1)).map (fun d => d.price)
    let gl := gainsLosses prices
    let avgGain : ℚ := gl.1 / period
    let avgLoss : ℚ := gl.2 / period
    let rs := JsNum.jsDiv (JsNum.num avgGain) (JsNum.num avgLoss)
    JsNum.jsSub (JsNum.num 100)
      (JsNum.jsDiv (JsNum.num 100) (JsNum.jsAdd (JsNum.num 1) rs))

/-- `AccumulationEngine.addPriceData` (accumulation-strategies.ts:228-239):
push `{price, volume: 0, timestamp: Date.now()}` then, when the buffer
exceeds 200 entries, keep only `slice(-200)`. -/
def addPriceData (history : List MarketData) (price : ℚ) (now : ℤ) :
    List MarketData :=
  let history' := history ++ [{ price := price, volume := 0, timestamp := now }]
  if 200 < history'.length then history'.drop (history'.length - 200)
  else history'

/-! ## Decision engine -/

inductive Trend where
  | BULLISH
  | BEARISH
deriving DecidableEq

inductive Momentum where
  | OVERBOUGHT
  | OVERSOLD
  | NEUTRAL
deriving DecidableEq

inductive PricePosition where
  | UNKNOWN
  | ABOVE_SMA
  | BELOW_SMA
deriving DecidableEq

/-- The `signals` object built in `getOptimalAction`
(accumulation-strategies.ts:168-172). -/
structure Signals where
  trend : Trend
  momentum : Momentum
  pricePosition : PricePosition
deriving DecidableEq

inductive ActionType where
  | BUY
  | SELL
deriving DecidableEq

/-- An emitted trade action (the `action` literal objects of
accumulation-strategies.ts:180-212). -/
structure Action where
  type : ActionType
  amount : ℚ
  reason : String
  confidence : ℚ
deriving DecidableEq

/-- The `marketData` snapshot returned by `getOptimalAction`
(accumulation-strategies.ts:218-224). -/
structure MarketSnapshot where
  price : ℚ
  sma20 : ℚ
  sma50 : ℚ
  rsi : JsNum
  trend : Trend
deriving DecidableEq

/-- Return value of `getOptimalAction`, plus the post-call
`this.priceHistory` (the source mutates the field; we pass state
explicitly). -/
structure OptimalResult where
  action : Option Action
  signals : Signals
  marketData : MarketSnapshot
  history : List MarketData
deriving DecidableEq

/-- The `signals` object literal of `getOptimalAction`
(accumulation-strategies.ts:168-172).  `!sma20` is JavaScript falsiness,
which for the rationals produced by `calculateSMA` is truth of `sma20 = 0`;
comparisons against the `JsNum`-valued RSI follow IEEE semantics. -/
def computeSignals (sma20 sma50 : ℚ) (rsi : JsNum) (currentPrice : ℚ) :
    Signals :=
  { trend := if sma20 > sma50 then Trend.BULLISH else Trend.BEARISH
    momentum :=
      if JsNum.jsGtQ rsi 70 then Momentum.OVERBOUGHT
      else if JsNum.jsLtQ rsi 30 then Momentum.OVERSOLD
      else Momentum.NEUTRAL
    pricePosition :=
      if sma20 = 0 then PricePosition.UNKNOWN
      else if currentPrice > sma20 then PricePosition.ABOVE_SMA
      else PricePosition.BELOW_SMA }

/-- The accumulation priority ladder of `getOptimalAction`
(accumulation-strategies.ts:174-213): first matching rule wins. -/
def selectAction (signals : Signals) (xrpBalance usdtBalance : ℚ)
    (config : AccumulationConfig) : Option Action :=
  if signals.momentum = Momentum.OVERSOLD ∧
      signals.pricePosition = PricePosition.BELOW_SMA then
    some { type := ActionType.BUY
           amount := min (usdtBalance * 0.3) (config.baseAmount * 0.3)
           reason := "Strong accumulation signal: Oversold + Below SMA"
           confidence := 0.9 }
  else if signals.momentum = Momentum.OVERSOLD ∨
      signals.pricePosition = PricePosition.BELOW_SMA then
    some { type := ActionType.BUY
           amount := min (usdtBalance * 0.15) (config.baseAmount * 0.15)
           reason := "Moderate accumulation signal"
           confidence := 0.7 }
  else if signals.trend = Trend.BULLISH ∧ usdtBalance > 50 then
    some { type := ActionType.BUY
           amount := min (usdtBalance * 0.05) (config.baseAmount * 0.05)
           reason := "DCA accumulation in uptrend"
           confidence := 0.5 }
  else if signals.momentum = Momentum.OVERBOUGHT ∧
      signals.pricePosition = PricePosition.ABOVE_SMA ∧ xrpBalance > 100 then
    some { type := ActionType.SELL
           amount := xrpBalance * 0.2
           reason := "Partial profit taking - heavily overbought"
           confidence := 0.6 }
  else none

/-- `AccumulationEngine.getOptimalAction`
(accumulation-strategies.ts:161-226).  Appends the current price to the
history, computes SMA(20)/SMA(50)/RSI(14), classifies the three signals and
walks the priority ladder. -/
def getOptimalAction (history : List MarketData) (currentPrice : ℚ)
    (xrpBalance : ℚ) (usdtBalance : ℚ) (config : AccumulationConfig)
    (now : ℤ) : OptimalResult :=
  let history' := addPriceData history currentPrice now
  let sma20 := calculateSMA history' 20
  let sma50 := calculateSMA history' 50
  let rsi := calculateRSI history' 14
  let signals := computeSignals sma20 sma50 rsi currentPrice
  { action := selectAction signals xrpBalance usdtBalance config
    signals := signals
    marketData :=
      { price := currentPrice, sma20 := sma20, sma50 := sma50, rsi := rsi
        trend := signals.trend }
    history := history' }

/-! ## Trading rules, quantization and validation (`src/unnamed/part_001`) -/

/-- `interface TradingRules` (part_001:182-189). -/
structure TradingRules where
  minQty : ℚ
  maxQty : ℚ
  stepSize : ℚ
  minNotional : ℚ
  baseAssetPrecision : ℕ
  quotePrecision : ℕ
deriving DecidableEq

/-- `Number.parseFloat(x.toFixed(8))`: round to 8 decimal places, half
toward `+∞` (ECMAScript `toFixed` picks the larger candidate on ties). -/
def round8 (q : ℚ) : ℚ :=
  (⌊q * 100000000 + 1 / 2⌋ : ℚ) / 100000000

/-- `BinanceFilters.adjustQuantity` (part_001:238-255): return `0` below
`minQty`; clamp to `maxQty`; floor to a whole number of steps
(`steps = Math.floor(quantity / stepSize)`); round the product to 8
decimals. -/
def adjustQuantity (quantity : ℚ) (rules : TradingRules) : ℚ :=
  if quantity < rules.minQty then 0
  else
    let q := if quantity > rules.maxQty then rules.maxQty else quantity
    let steps : ℤ := ⌊q / rules.stepSize⌋
    round8 ((steps : ℚ) * rules.stepSize)

/-- Result of `BinanceFilters.validateOrder` (part_001:262-266). -/
structure ValidationResult where
  valid : Bool
  adjustedQuantity : ℚ
  errors : List String
deriving DecidableEq

/-- `BinanceFilters.validateOrder` (part_001:257-292).  The source
interpolates the offending numbers into its error strings; the messages
here keep the fixed text only, which preserves the count and emptiness of
`errors`. -/
def validateOrder (symbol : String) (quantity : ℚ) (price : ℚ)
    (rules : TradingRules) : ValidationResult :=
  if quantity < rules.minQty then
    { valid := false, adjustedQuantity := 0
      errors := ["Quantity is below minimum"] }
  else
    let adjustedQuantity := adjustQuantity quantity rules
    if adjustedQuantity = 0 then
      { valid := false, adjustedQuantity := 0
        errors := ["Adjusted quantity is 0 after applying step size"] }
    else if adjustedQuantity * price < rules.minNotional then
      { valid := false, adjustedQuantity := 0
        errors := ["Notional value is below minimum"] }
    else
      { valid := true, adjustedQuantity := adjustedQuantity, errors := [] }

/-! ## Clock synchronization (`src/lib/binance-time-sync.ts`) -/

/-- The module-level mutable state `timeOffset` / `lastSyncTime`
(binance-time-sync.ts:1-2); both start at 0. -/
structure SyncState where
  timeOffset : ℤ
  lastSyncTime : ℤ
deriving DecidableEq

/-- `syncServerTime` (binance-time-sync.ts:4-31), state-passing form.
`now` is the `Date.now()` read at entry; `fetchResult` is `some serverTime`
when the HTTP fetch of `/v3/time` succeeds and `none` when it fails (non-ok
response or thrown error — both leave the state unchanged in the source);
`localTime` is the second `Date.now()` read after a successful response.
The returned `Bool` records whether an underlying server-time fetch was
issued. -/
def syncServerTime (st : SyncState) (now : ℤ) (fetchResult : Option ℤ)
    (localTime : ℤ) : SyncState × Bool :=
  if now - st.lastSyncTime < 5 * 60 * 1000 then (st, false)
  else
    match fetchResult with
    | some serverTime =>
        ({ timeOffset := serverTime - localTime, lastSyncTime := localTime },
          true)
    | none => (st, true)

/-! ## Shared auxiliary definitions for the verification -/

/-- A price sample with irrelevant volume/timestamp, for concrete runs. -/
def sample (price : ℚ) : MarketData :=
  { price := price, volume := 0, timestamp := 0 }

/-- A concrete engine configuration used by concrete runs. -/
def sampleConfig : AccumulationConfig :=
  { strategy := "dca", baseAmount := 1000, maxXrpHolding := 10000
    riskTolerance := 1 / 10 }

/-- `q` is representable with at most 8 decimal places. -/
def hasAtMost8Decimals (q : ℚ) : Prop :=
  (q * 100000000).den = 1

/-- A concrete rules record (minQty 1, maxQty 10⁶, stepSize 1,
minNotional 10) used by concrete runs. -/
def unitRules : TradingRules :=
  { minQty := 1, maxQty := 1000000, stepSize := 1, minNotional := 10,
    baseAssetPrecision := 8, quotePrecision := 8 }

/-! ## Claim theorems -/

/-- C1: `validateOrder` never returns `valid := true` when the adjusted
quantity times the price is below `minNotional`: every valid result has a
notional value of at least `rules.minNotional`. -/
theorem validateOrder_never_valid_below_notional
    (symbol : String) (quantity price : ℚ) (rules : TradingRules)
    (hv : (validateOrder symbol quantity price rules).valid = true) :
    rules.minNotional ≤
      (validateOrder symbol quantity price rules).adjustedQuantity * price := by
  simp only [validateOrder] at hv ⊢
  split_ifs at hv ⊢ with h₁ h₂ h₃ <;> simp_all

/-- C1 witness: a concrete valid order meets its notional floor. -/
theorem validateOrder_never_valid_below_notional_witness :
    unitRules.minNotional ≤
      (validateOrder "XRPUSDT" 20 1 unitRules).adjustedQuantity * 1 :=
  validateOrder_never_valid_below_notional "XRPUSDT" 20 1 unitRules
    (by norm_num [validateOrder, adjustQuantity, round8, unitRules])

/-- C10: a `validateOrder` result is valid exactly when its error list is
empty, and every invalid result carries adjusted quantity 0 and exactly one
error message. -/
theorem validateOrder_result_invariants
    (symbol : String) (quantity price : ℚ) (rules : TradingRules) :
    ((validateOrder symbol quantity price rules).valid = true ↔
      (validateOrder symbol quantity price rules).errors = []) ∧
    ((validateOrder symbol quantity price rules).valid = false →
      (validateOrder symbol quantity price rules).adjustedQuantity = 0 ∧
      (validateOrder symbol quantity price rules).errors.length = 1) := by
  simp only [validateOrder]
  split_ifs <;> simp

/-- C10 witness: a concretely rejected order (quantity below the minimum)
has adjusted quantity 0 and exactly one error. -/
theorem validateOrder_result_invariants_witness :
    (validateOrder "XRPUSDT" (1 / 2) 1 unitRules).adjustedQuantity = 0 ∧
    (validateOrder "XRPUSDT" (1 / 2) 1 unitRules).errors.length = 1 :=
  (validateOrder_result_invariants "XRPUSDT" (1 / 2) 1 unitRules).2
    (by norm_num [validateOrder, unitRules])

/-- C8: every append keeps at most the 200 most-recent samples, evicting
from the front (FIFO), and the append performed inside `getOptimalAction`
is exactly `addPriceData`. -/
theorem addPriceData_bounded_fifo
    (history : List MarketData) (price : ℚ) (now : ℤ) :
    (addPriceData history price now).length ≤ 200 ∧
    addPriceData history price now =
      (history ++ [MarketData.mk price 0 now]).drop
        ((history.length + 1) - 200) ∧
    ∀ (xrpBalance usdtBalance : ℚ) (config : AccumulationConfig),
      (getOptimalAction history price xrpBalance usdtBalance config
          now).history =
        addPriceData history price now := by
  refine ⟨?_, ?_, fun _ _ _ => rfl⟩
  · simp only [addPriceData]
    split_ifs with h <;> simp_all <;> omega
  · simp only [addPriceData]
    split_ifs with h
    · simp
    · simp only [List.length_append, List.length_singleton] at h
      have h0 : history.length + 1 - 200 = 0 := by omega
      simp [h0]

/-- C5 (code bug exhibit): on a history of 15 samples at one constant
price, the RSI window has zero summed gains and zero summed losses, so the
unguarded division computes `0 / 0 = NaN` and `calculateRSI` returns `NaN`
— outside the claimed range `[0, 100]` and not the claimed clamp to 100. -/
theorem calculateRSI_nan_on_flat_history :
    calculateRSI (List.replicate 15 (sample 1)) 14 = JsNum.nan := by
  norm_num [calculateRSI, lastN, gainsLosses, sample, List.replicate,
    JsNum.jsDiv, JsNum.jsAdd, JsNum.jsSub]

/-- C3 counterexample: with insufficient history `calculateSMA` returns the
number 0 — not a distinguished "undefined" value — and this collides with
the value it returns on a 20-sample history whose true mean is 0, so
callers cannot distinguish the two cases by the return value. -/
theorem calculateSMA_returns_zero_cex :
    calculateSMA [] 20 = 0 ∧
    calculateSMA (List.replicate 20 (sample 0)) 20 = 0 := by
  constructor
  · norm_num [calculateSMA]
  · norm_num [calculateSMA, lastN, sample, List.replicate]

/-- C3 amended: for histories shorter than `period`, `calculateSMA` returns
the number 0 (a falsy sentinel, not a distinguished undefined value); for
histories of at least `period` samples it returns the arithmetic mean of
the last `period` prices. -/
theorem calculateSMA_default_and_mean
    (history : List MarketData) (period : ℕ) (hp : 0 < period) :
    (history.length < period → calculateSMA history period = 0) ∧
    (period ≤ history.length →
      calculateSMA history period * period =
        ((lastN history period).map (fun d => d.price)).sum ∧
      (lastN history period).length = period) := by
  constructor
  · intro h
    simp [calculateSMA, h]
  · intro h
    have hlt : ¬ history.length < period := not_lt.mpr h
    refine ⟨?_, ?_⟩
    · simp only [calculateSMA, if_neg hlt]
      exact div_mul_cancel₀ _ (Nat.cast_ne_zero.mpr hp.ne')
    · simp only [lastN, List.length_drop]
      omega

/-- C3 witness: on a concrete 2-sample history, the SMA times the period is
the sum of the window, the window has full length, and the mean is 2. -/
theorem calculateSMA_default_and_mean_witness :
    (calculateSMA [sample 1, sample 3] 2 * 2 =
        ((lastN [sample 1, sample 3] 2).map (fun d => d.price)).sum ∧
      (lastN [sample 1, sample 3] 2).length = 2) ∧
    calculateSMA [sample 1, sample 3] 2 = 2 :=
  ⟨(calculateSMA_default_and_mean [sample 1, sample 3] 2 (by norm_num)).2
      (by norm_num),
   by norm_num [calculateSMA, lastN, sample]⟩

/-- C9 counterexample: two `syncServerTime` calls one millisecond apart —
well inside one 5-minute window — both issue an underlying server-time
fetch, because the first fetch fails and so does not update
`lastSyncTime`. -/
theorem syncServerTime_two_fetches_cex :
    (syncServerTime ⟨0, 0⟩ 1000000 none 0).2 = true ∧
    (syncServerTime ⟨0, 0⟩ 1000000 none 0).1 = ⟨0, 0⟩ ∧
    (syncServerTime ⟨0, 0⟩ 1000001 none 0).2 = true ∧
    (1000001 : ℤ) - 1000000 < 5 * 60 * 1000 := by
  norm_num [syncServerTime]

/-- C9 amended: a `syncServerTime` call under 5 minutes after the recorded
sync time is a no-op issuing no fetch; otherwise a fetch is issued and, on
success, `offset = serverTime - localTime` and the sync timestamp are
stored; consequently any call within 5 minutes of a successful sync issues
no further fetch (at most one fetch per window is only guaranteed when the
first fetch succeeds). -/
theorem syncServerTime_rate_limited :
    (∀ (st : SyncState) (now : ℤ) (fetchResult : Option ℤ) (localTime : ℤ),
      now - st.lastSyncTime < 5 * 60 * 1000 →
      syncServerTime st now fetchResult localTime = (st, false)) ∧
    (∀ (st : SyncState) (now serverTime localTime : ℤ),
      ¬ now - st.lastSyncTime < 5 * 60 * 1000 →
      syncServerTime st now (some serverTime) localTime =
        ({ timeOffset := serverTime - localTime,
           lastSyncTime := localTime }, true)) ∧
    (∀ (st : SyncState) (t₁ serverTime localTime t₂ : ℤ)
      (fetchResult₂ : Option ℤ) (localTime₂ : ℤ),
      ¬ t₁ - st.lastSyncTime < 5 * 60 * 1000 →
      t₂ - localTime < 5 * 60 * 1000 →
      syncServerTime (syncServerTime st t₁ (some serverTime) localTime).1 t₂
          fetchResult₂ localTime₂ =
        ((syncServerTime st t₁ (some serverTime) localTime).1, false)) := by
  refine ⟨fun st now o l h => ?_, fun st now serverTime localTime h => ?_,
    fun st t₁ serverTime localTime t₂ o₂ l₂ h₁ h₂ => ?_⟩
  · simp only [syncServerTime]
    rw [if_pos h]
  · simp only [syncServerTime]
    rw [if_neg h]
  · have hinner : syncServerTime st t₁ (some serverTime) localTime =
        ({ timeOffset := serverTime - localTime,
           lastSyncTime := localTime }, true) := by
      simp only [syncServerTime]
      rw [if_neg h₁]
    rw [hinner]
    show syncServerTime
        { timeOffset := serverTime - localTime, lastSyncTime := localTime }
        t₂ o₂ l₂ =
      ({ timeOffset := serverTime - localTime,
         lastSyncTime := localTime }, false)
    simp only [syncServerTime]
    rw [if_pos h₂]

/-- C9 witness: a concrete call 500 ms after the recorded sync is a no-op,
and a concrete successful sync suppresses the fetch of a call made 1 ms
later. -/
theorem syncServerTime_rate_limited_witness :
    syncServerTime ⟨7, 1000⟩ 1500 (some 99) 42 = (⟨7, 1000⟩, false) ∧
    syncServerTime (syncServerTime ⟨0, 0⟩ 300000 (some 500000) 300001).1
        300002 (some 999) 999999 =
      ((syncServerTime ⟨0, 0⟩ 300000 (some 500000) 300001).1, false) :=
  ⟨syncServerTime_rate_limited.1 ⟨7, 1000⟩ 1500 (some 99) 42 (by norm_num),
   syncServerTime_rate_limited.2.2 ⟨0, 0⟩ 300000 500000 300001 300002
     (some 999) 999999 (by norm_num) (by norm_num)⟩

/-! ## Quantization lemmas -/

/-- Rules with step size 1/2 (an 8-decimal step with `minQty` a step
multiple), used by concrete runs. -/
def halfStepRules : TradingRules :=
  { minQty := 1, maxQty := 10, stepSize := 1 / 2, minNotional := 10,
    baseAssetPrecision := 8, quotePrecision := 8 }

/-- Rules whose step size 7·10⁻⁹ needs more than 8 decimal places. -/
def nanoStepRules : TradingRules :=
  { minQty := 0, maxQty := 1000000, stepSize := 7 / 1000000000,
    minNotional := 10, baseAssetPrecision := 8, quotePrecision := 8 }

/-- Rules whose `minQty` (5) is not a multiple of `stepSize` (3). -/
def coarseStepRules : TradingRules :=
  { minQty := 5, maxQty := 1000000, stepSize := 3, minNotional := 10,
    baseAssetPrecision := 8, quotePrecision := 8 }

theorem round8_intDiv (n : ℤ) :
    round8 ((n : ℚ) / 100000000) = (n : ℚ) / 100000000 := by
  unfold round8
  rw [div_mul_cancel₀ _ (by norm_num : (100000000 : ℚ) ≠ 0),
    Int.floor_int_add]
  norm_num

theorem round8_stepMul (k m : ℤ) (step : ℚ)
    (hstep : step = (m : ℚ) / 100000000) :
    round8 ((k : ℚ) * step) = (k : ℚ) * step := by
  subst hstep
  have h : (k : ℚ) * ((m : ℚ) / 100000000) =
      ((k * m : ℤ) : ℚ) / 100000000 := by
    push_cast
    ring
  rw [h, round8_intDiv]

theorem adjustQuantity_below (rules : TradingRules) (qty : ℚ)
    (h : qty < rules.minQty) : adjustQuantity qty rules = 0 := by
  unfold adjustQuantity
  rw [if_pos h]

theorem adjustQuantity_notBelow (rules : TradingRules) (qty : ℚ) (m : ℤ)
    (h : ¬ qty < rules.minQty) (hstep : rules.stepSize = (m : ℚ) / 100000000) :
    adjustQuantity qty rules =
      (⌊(if qty > rules.maxQty then rules.maxQty else qty) /
          rules.stepSize⌋ : ℚ) * rules.stepSize := by
  simp only [adjustQuantity, if_neg h]
  exact round8_stepMul _ m _ hstep

/-- C2 amended: for rules whose `stepSize` is a positive multiple of 10⁻⁸
(every Binance step size is an 8-decimal string) and any quantity at least
`minQty`, `adjustQuantity` returns an exact integer multiple of `stepSize`,
at most `maxQty`, with at most 8 decimal places; any quantity below
`minQty` yields 0.  (For step sizes finer than 8 decimals the 8-decimal
rounding can break the step-multiple and `maxQty` bounds — see the
counterexample.) -/
theorem adjustQuantity_quantize_props (rules : TradingRules) (qty : ℚ)
    (m : ℤ) (hm : 0 < m) (hstep : rules.stepSize = (m : ℚ) / 100000000) :
    (rules.minQty ≤ qty →
      (∃ k : ℤ, adjustQuantity qty rules = (k : ℚ) * rules.stepSize) ∧
      adjustQuantity qty rules ≤ rules.maxQty ∧
      hasAtMost8Decimals (adjustQuantity qty rules)) ∧
    (qty < rules.minQty → adjustQuantity qty rules = 0) := by
  have hstep0 : (0 : ℚ) < rules.stepSize := by
    rw [hstep]
    exact div_pos (by exact_mod_cast hm) (by norm_num)
  refine ⟨fun hq => ?_, fun hq => adjustQuantity_below rules qty hq⟩
  have hnb : ¬ qty < rules.minQty := not_lt.mpr hq
  rw [adjustQuantity_notBelow rules qty m hnb hstep]
  set q' := if qty > rules.maxQty then rules.maxQty else qty with hqdef
  refine ⟨⟨⌊q' / rules.stepSize⌋, rfl⟩, ?_, ?_⟩
  · have h1 : (⌊q' / rules.stepSize⌋ : ℚ) ≤ q' / rules.stepSize :=
      Int.floor_le _
    have h2 : (⌊q' / rules.stepSize⌋ : ℚ) * rules.stepSize ≤ q' := by
      calc (⌊q' / rules.stepSize⌋ : ℚ) * rules.stepSize
          ≤ q' / rules.stepSize * rules.stepSize :=
            mul_le_mul_of_nonneg_right h1 hstep0.le
        _ = q' := div_mul_cancel₀ _ hstep0.ne'
    have h3 : q' ≤ rules.maxQty := by
      rw [hqdef]
      split_ifs with h
      · exact le_refl _
      · exact le_of_not_lt h
    exact h2.trans h3
  · unfold hasAtMost8Decimals
    have h : (⌊q' / rules.stepSize⌋ : ℚ) * rules.stepSize * 100000000 =
        ((⌊q' / rules.stepSize⌋ * m : ℤ) : ℚ) := by
      rw [hstep]
      push_cast
      field_simp
    rw [h, Rat.den_intCast]

/-- C2 witness: quantity 2.3 against a 0.5 step is adjusted to a step
multiple within bounds and 8 decimals. -/
theorem adjustQuantity_quantize_props_witness :
    (∃ k : ℤ, adjustQuantity (23 / 10) halfStepRules =
      (k : ℚ) * halfStepRules.stepSize) ∧
    adjustQuantity (23 / 10) halfStepRules ≤ halfStepRules.maxQty ∧
    hasAtMost8Decimals (adjustQuantity (23 / 10) halfStepRules) :=
  (adjustQuantity_quantize_props halfStepRules (23 / 10) 50000000
      (by norm_num) (by norm_num [halfStepRules])).1
    (by norm_num [halfStepRules])

/-- C2 counterexample: with `stepSize = 7·10⁻⁹` (finer than 8 decimals) and
quantity `7·10⁻⁹ ≥ minQty`, the result `10⁻⁸` of `adjustQuantity` is not an
integer multiple of the step size, refuting the claim for arbitrary
positive step sizes. -/
theorem adjustQuantity_not_step_multiple_cex :
    (0 : ℚ) < nanoStepRules.stepSize ∧
    nanoStepRules.minQty ≤ 7 / 1000000000 ∧
    adjustQuantity (7 / 1000000000) nanoStepRules = 1 / 100000000 ∧
    ¬ ∃ k : ℤ, adjustQuantity (7 / 1000000000) nanoStepRules =
      (k : ℚ) * nanoStepRules.stepSize := by
  have h1 : adjustQuantity (7 / 1000000000) nanoStepRules = 1 / 100000000 := by
    norm_num [adjustQuantity, round8, nanoStepRules]
  refine ⟨by norm_num [nanoStepRules], by norm_num [nanoStepRules], h1, ?_⟩
  rintro ⟨k, hk⟩
  rw [h1] at hk
  simp only [nanoStepRules] at hk
  have h10 : (10 : ℚ) = 7 * (k : ℚ) := by
    field_simp at hk
    linarith
  have h10' : (10 : ℤ) = 7 * k := by exact_mod_cast h10
  omega

/-- C7 counterexample: with `minQty = 5` not a multiple of
`stepSize = 3`, quantity 5 quantizes to 3, but re-quantizing 3 rejects it
(3 < minQty) and yields 0, so `quantize` is not idempotent for arbitrary
rules with positive step size. -/
theorem adjustQuantity_not_idempotent_cex :
    adjustQuantity 5 coarseStepRules = 3 ∧
    adjustQuantity (adjustQuantity 5 coarseStepRules) coarseStepRules = 0 ∧
    adjustQuantity (adjustQuantity 5 coarseStepRules) coarseStepRules ≠
      adjustQuantity 5 coarseStepRules := by
  have h1 : adjustQuantity 5 coarseStepRules = 3 := by
    norm_num [adjustQuantity, round8, coarseStepRules]
  have h2 : adjustQuantity 3 coarseStepRules = 0 := by
    norm_num [adjustQuantity, coarseStepRules]
  refine ⟨h1, by rw [h1, h2], by rw [h1, h2]; norm_num⟩

/-- C7 amended: `quantize` is idempotent for every rules record whose step
size is a positive multiple of 10⁻⁸ and whose `minQty` is a nonnegative
multiple of the step size not exceeding `maxQty` — the regime of real
exchange filters. -/
theorem adjustQuantity_idempotent (rules : TradingRules) (x : ℚ)
    (hmin0 : 0 ≤ rules.minQty) (hminmax : rules.minQty ≤ rules.maxQty)
    (m : ℤ) (hm : 0 < m) (hstep : rules.stepSize = (m : ℚ) / 100000000)
    (j : ℤ) (hj : rules.minQty = (j : ℚ) * rules.stepSize) :
    adjustQuantity (adjustQuantity x rules) rules =
      adjustQuantity x rules := by
  have hstep0 : (0 : ℚ) < rules.stepSize := by
    rw [hstep]
    exact div_pos (by exact_mod_cast hm) (by norm_num)
  by_cases hx : x < rules.minQty
  · rw [adjustQuantity_below rules x hx]
    by_cases h0 : (0 : ℚ) < rules.minQty
    · exact adjustQuantity_below rules 0 h0
    · have hmax0 : (0 : ℚ) ≤ rules.maxQty := hmin0.trans hminmax
      rw [adjustQuantity_notBelow rules 0 m h0 hstep]
      rw [if_neg (not_lt.mpr hmax0)]
      simp
  · rw [adjustQuantity_notBelow rules x m hx hstep]
    set q' := if x > rules.maxQty then rules.maxQty else x with hqdef
    set k := ⌊q' / rules.stepSize⌋ with hkdef
    have hqmax : q' ≤ rules.maxQty := by
      rw [hqdef]
      split_ifs with h
      · exact le_refl _
      · exact le_of_not_lt h
    have hqmin : rules.minQty ≤ q' := by
      rw [hqdef]
      split_ifs with h
      · exact hminmax
      · exact not_lt.mp hx
    have hks : (k : ℚ) * rules.stepSize ≤ q' := by
      have h1 : (k : ℚ) ≤ q' / rules.stepSize := Int.floor_le _
      calc (k : ℚ) * rules.stepSize
          ≤ q' / rules.stepSize * rules.stepSize :=
            mul_le_mul_of_nonneg_right h1 hstep0.le
        _ = q' := div_mul_cancel₀ _ hstep0.ne'
    have hjk : j ≤ k := by
      rw [hkdef]
      refine Int.le_floor.mpr ?_
      rw [le_div_iff₀ hstep0]
      calc (j : ℚ) * rules.stepSize = rules.minQty := hj.symm
        _ ≤ q' := hqmin
    have hmin_ks : rules.minQty ≤ (k : ℚ) * rules.stepSize := by
      rw [hj]
      exact mul_le_mul_of_nonneg_right (by exact_mod_cast hjk) hstep0.le
    rw [adjustQuantity_notBelow rules ((k : ℚ) * rules.stepSize) m
      (not_lt.mpr hmin_ks) hstep]
    rw [if_neg (not_lt.mpr (hks.trans hqmax))]
    rw [mul_div_assoc, div_self hstep0.ne', mul_one, Int.floor_intCast]

/-- C7 witness: idempotence at quantity 2.3 against the 0.5-step rules. -/
theorem adjustQuantity_idempotent_witness :
    adjustQuantity (adjustQuantity (23 / 10) halfStepRules) halfStepRules =
      adjustQuantity (23 / 10) halfStepRules :=
  adjustQuantity_idempotent halfStepRules (23 / 10)
    (by norm_num [halfStepRules]) (by norm_num [halfStepRules])
    50000000 (by norm_num) (by norm_num [halfStepRules])
    2 (by norm_num [halfStepRules])

/-! ## Decision-engine lemmas -/

theorem getOptimalAction_signals (history : List MarketData)
    (p xrp usdt : ℚ) (cfg : AccumulationConfig) (t : ℤ) :
    (getOptimalAction history p xrp usdt cfg t).signals =
      computeSignals (calculateSMA (addPriceData history p t) 20)
        (calculateSMA (addPriceData history p t) 50)
        (calculateRSI (addPriceData history p t) 14) p := rfl

theorem getOptimalAction_action (history : List MarketData)
    (p xrp usdt : ℚ) (cfg : AccumulationConfig) (t : ℤ) :
    (getOptimalAction history p xrp usdt cfg t).action =
      selectAction
        (computeSignals (calculateSMA (addPriceData history p t) 20)
          (calculateSMA (addPriceData history p t) 50)
          (calculateRSI (addPriceData history p t) 14) p)
        xrp usdt cfg := rfl

/-- A 19-sample flat history at price 1. -/
def flatHistory19 : List MarketData := List.replicate 19 (sample 1)

/-- C4 counterexample: with 20 samples of positive price the long SMA is
still undefined (history < 50), yet the trend signal comes out BULLISH, not
BEARISH, because the zero sentinel for `sma50` loses the comparison against
a positive `sma20`. -/
theorem trend_bullish_short_history_cex :
    (addPriceData flatHistory19 1 0).length = 20 ∧
    (getOptimalAction flatHistory19 1 150 100 sampleConfig 0).signals.trend =
      Trend.BULLISH := by
  constructor
  · norm_num [addPriceData, flatHistory19, List.replicate]
  · rw [getOptimalAction_signals]
    have h20 : calculateSMA (addPriceData flatHistory19 1 0) 20 = 1 := by
      norm_num [calculateSMA, addPriceData, lastN, flatHistory19, sample,
        List.replicate]
    have h50 : calculateSMA (addPriceData flatHistory19 1 0) 50 = 0 := by
      norm_num [calculateSMA, addPriceData, flatHistory19, List.replicate]
    simp [computeSignals, h20, h50]

/-- C4 amended: while the history (after the append) holds fewer than 50
samples, `sma50` is the sentinel 0, so the trend signal is BULLISH exactly
when `sma20 > 0` — i.e. BEARISH only while the short SMA is also still
undefined (fewer than 20 samples) or the prices are nonpositive, and
BULLISH for 20–49 samples of positive prices. -/
theorem trend_short_history_iff_sma20_pos (history : List MarketData)
    (p xrp usdt : ℚ) (cfg : AccumulationConfig) (t : ℤ)
    (hlen : (addPriceData history p t).length < 50) :
    (getOptimalAction history p xrp usdt cfg t).signals.trend =
      Trend.BULLISH ↔
      0 < calculateSMA (addPriceData history p t) 20 := by
  rw [getOptimalAction_signals]
  have h50 : calculateSMA (addPriceData history p t) 50 = 0 := by
    simp [calculateSMA, hlen]
  simp only [computeSignals, h50, gt_iff_lt]
  by_cases hpos : 0 < calculateSMA (addPriceData history p t) 20
  · simp [if_pos hpos, hpos]
  · simp [if_neg hpos, hpos]

/-- C4 witness: on an empty history the appended single sample leaves both
SMAs at the sentinel 0 and the trend is indeed not BULLISH. -/
theorem trend_short_history_iff_sma20_pos_witness :
    (addPriceData [] 1 0).length < 50 ∧
    ((getOptimalAction [] 1 0 0 sampleConfig 0).signals.trend =
        Trend.BULLISH ↔
      0 < calculateSMA (addPriceData [] 1 0) 20) :=
  ⟨by norm_num [addPriceData],
   trend_short_history_iff_sma20_pos [] 1 0 0 sampleConfig 0
     (by norm_num [addPriceData])⟩

/-- A 19-sample history that, after appending price 12, yields RSI exactly
75 and a 20-sample SMA of 11.4 (below the price). -/
def sellScenarioHistory : List MarketData :=
  [sample 10, sample 10, sample 10, sample 10, sample 10, sample 10,
   sample 11, sample 12, sample 13, sample 12, sample 12, sample 12,
   sample 12, sample 12, sample 12, sample 12, sample 12, sample 12,
   sample 12]

/-- C6 counterexample: a state with rsi = 75, price above the short SMA and
base balance 150 — the premises of the claim — in which `getOptimalAction`
returns a BUY (the higher-priority DCA rule fires because the trend is
BULLISH and the quote balance 100 exceeds 50), not the claimed SELL of
amount 30. -/
theorem overbought_sell_preempted_cex :
    calculateRSI (addPriceData sellScenarioHistory 12 0) 14 =
      JsNum.num 75 ∧
    calculateSMA (addPriceData sellScenarioHistory 12 0) 20 < 12 ∧
    calculateSMA (addPriceData sellScenarioHistory 12 0) 20 ≠ 0 ∧
    (getOptimalAction sellScenarioHistory 12 150 100 sampleConfig 0).action =
      some { type := ActionType.BUY, amount := 5,
             reason := "DCA accumulation in uptrend", confidence := 0.5 } := by
  refine ⟨?_, ?_, ?_, ?_⟩
  · norm_num [calculateRSI, addPriceData, lastN, gainsLosses,
      sellScenarioHistory, sample, JsNum.jsDiv, JsNum.jsAdd, JsNum.jsSub]
  · norm_num [calculateSMA, addPriceData, lastN, sellScenarioHistory, sample]
  · norm_num [calculateSMA, addPriceData, lastN, sellScenarioHistory, sample]
  · norm_num [getOptimalAction, computeSignals, selectAction, addPriceData,
      calculateSMA, calculateRSI, lastN, gainsLosses, sellScenarioHistory,
      sample, sampleConfig, JsNum.jsGtQ, JsNum.jsLtQ, JsNum.jsDiv,
      JsNum.jsAdd, JsNum.jsSub, min_def]
    simp

/-- C6 amended: if rsi is exactly 75 (overbought), the price is above a
nonzero short SMA, the base balance is 150, and additionally the
higher-priority DCA rule does not fire (the trend is not BULLISH or the
quote balance is at most 50), then `getOptimalAction` returns SELL with
amount 0.20 × 150 = 30 and confidence 0.6. -/
theorem overbought_above_sma_sell (history : List MarketData)
    (p usdt : ℚ) (cfg : AccumulationConfig) (t : ℤ)
    (hrsi : calculateRSI (addPriceData history p t) 14 = JsNum.num 75)
    (hsma : calculateSMA (addPriceData history p t) 20 ≠ 0)
    (habove : calculateSMA (addPriceData history p t) 20 < p)
    (hnodca : ¬(calculateSMA (addPriceData history p t) 50 <
        calculateSMA (addPriceData history p t) 20 ∧ 50 < usdt)) :
    (getOptimalAction history p 150 usdt cfg t).action =
      some { type := ActionType.SELL, amount := 30,
             reason := "Partial profit taking - heavily overbought",
             confidence := 0.6 } := by
  rw [getOptimalAction_action]
  have hmom : (computeSignals (calculateSMA (addPriceData history p t) 20)
      (calculateSMA (addPriceData history p t) 50)
      (calculateRSI (addPriceData history p t) 14) p).momentum =
      Momentum.OVERBOUGHT := by
    rw [computeSignals, hrsi]
    norm_num [JsNum.jsGtQ]
  have hpp : (computeSignals (calculateSMA (addPriceData history p t) 20)
      (calculateSMA (addPriceData history p t) 50)
      (calculateRSI (addPriceData history p t) 14) p).pricePosition =
      PricePosition.ABOVE_SMA := by
    simp [computeSignals, hsma, habove]
  have htrend : ¬((computeSignals (calculateSMA (addPriceData history p t) 20)
      (calculateSMA (addPriceData history p t) 50)
      (calculateRSI (addPriceData history p t) 14) p).trend =
        Trend.BULLISH ∧ 50 < usdt) := by
    rintro ⟨hb, hu⟩
    refine hnodca ⟨?_, hu⟩
    by_contra hlt
    rw [computeSignals] at hb
    simp only [gt_iff_lt, if_neg hlt] at hb
    exact absurd hb (by simp)
  simp only [selectAction, hmom, hpp]
  norm_num [htrend]
  simp

/-- C6 witness: the 20-sample scenario with quote balance 50 (the DCA rule
cannot fire) indeed sells 30 of the 150 base balance. -/
theorem overbought_above_sma_sell_witness :
    (getOptimalAction sellScenarioHistory 12 150 50 sampleConfig 0).action =
      some { type := ActionType.SELL, amount := 30,
             reason := "Partial profit taking - heavily overbought",
             confidence := 0.6 } :=
  overbought_above_sma_sell sellScenarioHistory 12 50 sampleConfig 0
    (by norm_num [calculateRSI, addPriceData, lastN, gainsLosses,
      sellScenarioHistory, sample, JsNum.jsDiv, JsNum.jsAdd, JsNum.jsSub])
    (by norm_num [calculateSMA, addPriceData, lastN, sellScenarioHistory,
      sample])
    (by norm_num [calculateSMA, addPriceData, lastN, sellScenarioHistory,
      sample])
    (fun hc => absurd hc.2 (lt_irrefl 50))

end BinanceBot
